import Mathlib

/-!
Formal model of the core of micro.py, a small multimedia library: the
resource cache and tile/animation addressing subsystem (resources.py) and
the input state-tracking subsystem (input.py), together with theorems
checking the specification claims about them.

Conventions of the embedding:
* Python integers are modelled as Lean Int; Python floor division (the
  operator with two slashes) and the Python modulo operator are Int.fdiv
  and Int.fmod, which agree with Python on all signs.
* Python floats that only ever take part in index arithmetic (animation
  rates and elapsed times) are modelled as rationals; the Python builtin
  int() on a non-negative value is truncation toward zero (pytrunc).
* Python exceptions are modelled with Except over the Err type below; the
  constructor names follow the error taxonomy of the specification, and a
  comment at each constructor records the concrete Python exception class
  the code raises.
* Python dicts on which the code only ever performs lookup, pointwise
  update and deletion are modelled either as association lists (when the
  value set matters) or as functions into Option (for the key hold
  counters, where the code iterates over all present entries pointwise).
-/

set_option linter.unusedVariables false

deriving instance DecidableEq for Except

namespace Micro

/-- Truncation toward zero, the behaviour of the Python builtin int() on a
rational argument; resources.py line 393 computes int(time * self.rate). -/
def pytrunc (q : ℚ) : ℤ := if q < 0 then ⌈q⌉ else ⌊q⌋

/-- Lowercasing of every character, modelling the Python str.lower method on
the ASCII data that resource and animation names consist of. -/
def lowerStr (s : String) : String := ⟨s.data.map Char.toLower⟩

/-- Removal of leading and trailing whitespace, modelling Python str.strip
with no argument. -/
def stripStr (s : String) : String :=
  ⟨((s.data.dropWhile Char.isWhitespace).reverse.dropWhile Char.isWhitespace).reverse⟩

/-- The ASCII character class a-z. -/
def isAZ (c : Char) : Bool := 'a' ≤ c && c ≤ 'z'

/-- The ASCII character class 0-9a-z. -/
def isAZ09 (c : Char) : Bool := isAZ c || c.isDigit

/-- Success of the Python call re.match with pattern [a-z][0-9a-z]* against
s.  re.match anchors only at the start of the string, so the call succeeds
exactly when s begins with an ASCII lower-case letter; characters after the
first position never cause a failure.  Used on the already lowercased
resource name at resources.py line 170. -/
def reMatchStar (s : String) : Bool :=
  match s.data with
  | c :: _ => isAZ c
  | [] => false

/-- Success of the Python call re.match with pattern [a-z][0-9a-z]+ against
s: again a prefix match, succeeding exactly when s starts with a letter
followed by one alphanumeric.  Used on animation names at resources.py
lines 86 and 446. -/
def reMatchPlus (s : String) : Bool :=
  match s.data with
  | c1 :: c2 :: _ => isAZ c1 && isAZ09 c2
  | _ => false

/-- Full (anchored at both ends) match of the identifier pattern
[a-z][0-9a-z]*.  This is the reading of the identifier rule stated by the
specification; it is compared against the prefix test the code performs. -/
def specIdentStar (s : String) : Bool :=
  match s.data with
  | c :: cs => isAZ c && cs.all isAZ09
  | [] => false

/-- Full (anchored at both ends) match of the animation identifier pattern
[a-z][0-9a-z]+, an ASCII letter followed by one or more alphanumerics, as
the specification states it. -/
def specIdentPlus (s : String) : Bool :=
  match s.data with
  | c :: cs => isAZ c && cs.all isAZ09 && !cs.isEmpty
  | [] => false

/-- Error taxonomy of the specification.  The comment on each constructor
names the Python exception class the code actually raises at the
corresponding place. -/
inductive Err where
  /-- InvalidNameError; raised as ValueError at resources.py lines 171 and 447. -/
  | invalidName
  /-- NotFoundError; raised as KeyError at resources.py line 202. -/
  | notFound
  /-- UnknownAnimationError; raised as KeyError at resources.py line 452. -/
  | unknownAnimation
  /-- LoadError; raised as IOError by the kind-specific loaders. -/
  | loadError
  /-- FormatError; raised as IOError by the metadata and tile-map parsers. -/
  | formatError
  /-- ZeroDivisionError, raised by the Python modulo and floor-division
  operators on a zero divisor. -/
  | zeroDivision
  /-- IndexError from a Python list subscript out of range. -/
  | indexError
  /-- AttributeError; resources.py lines 186 and 200 misspell
  self.resource_type as self.reosurce_type, so evaluating the raise
  statement itself fails with AttributeError. -/
  | attributeError
  /-- NameError from reading a local variable that was never assigned. -/
  | nameError
deriving DecidableEq, Repr

/-- Animation, resources.py lines 385 to 404: a playback rate, a loop mode
kept as the literal string none or loop, and the parsed frame-index
sequence.  load_tile_desc only ever constructs animations with a non-empty
frame list (resources.py lines 98 to 112). -/
structure Animation where
  rate   : ℚ
  loop   : String
  frames : List ℕ
deriving DecidableEq, Repr

/-- Animation.get_frame, resources.py lines 392 to 400.  The returned value
is index + 1 where index is the computed frame offset; the entries of the
frames list are never read, only its length is.  The Python modulo on a
zero-length frame list would raise ZeroDivisionError; Int.fmod instead
returns its first argument, which is harmless because every Animation the
code builds has at least one frame. -/
def Animation.get_frame (a : Animation) (time : ℚ) : ℤ :=
  let index : ℤ := pytrunc (time * a.rate)
  let index : ℤ :=
    if a.loop = "none" then min index (a.frames.length : ℤ)
    else if a.loop = "loop" then index.fmod (a.frames.length : ℤ)
    else index
  index + 1

/-- An SDL_Rect as used by resources.py: origin and size, all Python ints. -/
structure Rect where
  x : ℤ
  y : ℤ
  w : ℤ
  h : ℤ
deriving DecidableEq, Repr

/-- Image, resources.py lines 407 to 418, without the opaque SDL texture
handle: pixel size, tile description, and the animation dictionary keyed by
lowercased animation name. -/
structure Image where
  width        : ℤ
  height       : ℤ
  tile_width   : ℤ
  tile_height  : ℤ
  tile_margin  : ℤ
  tile_spacing : ℤ
  animations   : List (String × Animation)
deriving DecidableEq, Repr

/-- The column count computed inside Image.get_source_rect at resources.py
line 434: (width - margin * 2) // tile_width with Python floor division. -/
def Image.columns (img : Image) : ℤ :=
  (img.width - img.tile_margin * 2).fdiv img.tile_width

/-- A reference accepted by Image.get_source_rect: either a value the
Python builtin int() accepts (the tile-frame path) or any other string (the
animation-name path, reached through the ValueError handler at
resources.py line 443). -/
inductive Ref where
  | num (n : ℤ)
  | name (s : String)
deriving DecidableEq, Repr

/-- The integer branch of Image.get_source_rect, resources.py lines 423 to
442: frame zero is the whole image, any other frame is turned into a tile
rectangle with no bounds check against the image extent.  The zeroDivision
errors mark the places where the Python floor division (tile_width zero)
or modulo (columns zero) would raise. -/
def Image.frameRect (img : Image) (frame : ℤ) : Except Err Rect :=
  if frame = 0 then
    .ok ⟨0, 0, img.width, img.height⟩
  else
    let frame := frame - 1
    let margin := img.tile_margin
    let tile_w := img.tile_width
    let tile_h := img.tile_height
    let cell_w := tile_w + img.tile_spacing
    let cell_h := tile_h + img.tile_spacing
    if tile_w = 0 then .error .zeroDivision
    else if img.columns = 0 then .error .zeroDivision
    else
      .ok ⟨margin + (frame.fmod img.columns) * cell_w,
           margin + (frame.fdiv img.columns) * cell_h,
           tile_w, tile_h⟩

/-- Image.get_source_rect, resources.py lines 421 to 452.  An integer
reference goes straight to the frame rectangle.  A non-integer reference is
stripped and lowercased, checked with the prefix regex test, and looked up
in the animation dictionary; on success the code calls get_source_rect
again on the integer returned by get_frame, a call that lands in the
integer branch at once, so it is rendered here as a direct call to
frameRect. -/
def Image.get_source_rect (img : Image) : Ref → ℚ → Except Err Rect
  | .num frame, _time => img.frameRect frame
  | .name s, time =>
    let key := lowerStr (stripStr s)
    if !(reMatchPlus key) then .error .invalidName
    else
      match List.lookup key img.animations with
      | some a => img.frameRect (a.get_frame time)
      | none => .error .unknownAnimation

/-- TileMap, resources.py lines 460 to 465: tileset name, grid size, and
the row-major grid in which rows may be shorter than the grid width. -/
structure TileMap where
  tileset : String
  width   : ℤ
  height  : ℤ
  rows    : List (List String)
deriving DecidableEq, Repr

/-- TileMap.get, resources.py lines 468 to 476: wraps both coordinates with
the Python modulo, indexes the row list, and returns the literal string 0
for a column at or beyond the stored row length.  The zeroDivision errors
mark the ZeroDivisionError the Python modulo raises on a zero grid
dimension, and indexError marks the list subscript failing when the row
list is shorter than the height. -/
def TileMap.get (m : TileMap) (x y : ℤ) : Except Err String :=
  if m.width = 0 then .error .zeroDivision
  else
    let x := x.fmod m.width
    if m.height = 0 then .error .zeroDivision
    else
      let y := y.fmod m.height
      match m.rows.get? y.toNat with
      | none => .error .indexError
      | some row => if (row.length : ℤ) ≤ x then .ok "0" else .ok (row.getD x.toNat "0")

/-- Cache key of AbstractResourceManager.get, resources.py line 174: the
stripped, lowercased name together with the extra discriminators (for
example the font point size), modelled as integers. -/
abbrev Key := String × List ℤ

/-- The cache dictionary of one resource manager, modelled as a finite
partial map; handles are abstract naturals. -/
abbrev Cache := Key → Option ℕ

/-- Python dict assignment self.cache[key] = resource. -/
def cacheInsert (c : Cache) (k : Key) (v : ℕ) : Cache :=
  fun k2 => if k2 = k then some v else c k2

/-- Environment a resource manager runs against: the directory scan
performed by find_resource over the file-type extensions and over the
metadata extensions, whether the manager declares metadata extensions at
all, and the kind-specific loaders.  A loader models the Python hook
methods of resources.py lines 154 to 162: it may raise (the error case,
propagated unchanged by get) or return a possibly falsy resource (none
models a falsy return). -/
structure Env where
  find         : String → Option String
  findMeta     : String → Option String
  hasMeta      : Bool
  load         : Key → String → Option String → Except Err (Option ℕ)
  loadInternal : Key → Except Err (Option ℕ)

/-- Result of one call to get: the outcome, the cache afterwards, and how
many directory searches and loader invocations the call performed. -/
structure GetOut where
  res      : Except Err ℕ
  cache    : Cache
  searches : ℕ
  loads    : ℕ

/-- AbstractResourceManager.get, resources.py lines 166 to 202.  The name
is stripped then lowercased; the identifier check is the prefix match of
reMatchStar and is skipped for internal resources; a cache hit returns at
once with no search and no load; otherwise the backing file and, when the
manager declares metadata extensions, the metadata file are searched for
before the load; the cache is written only after a load that returned a
truthy resource.  A loader that returns a falsy value sends the code into
the raise statements at lines 186 and 200, which themselves fail with
AttributeError because of the reosurce_type misspelling. -/
def get (env : Env) (cache : Cache) (name : String) (more : List ℤ)
    (internal : Bool) : GetOut :=
  let name := stripStr name
  let key0 := lowerStr name
  if !internal && !(reMatchStar key0) then ⟨.error .invalidName, cache, 0, 0⟩
  else
    let key : Key := (key0, more)
    match cache key with
    | some r => ⟨.ok r, cache, 0, 0⟩
    | none =>
      if internal then
        match env.loadInternal key with
        | .error e => ⟨.error e, cache, 0, 1⟩
        | .ok (some r) => ⟨.ok r, cacheInsert cache key r, 0, 1⟩
        | .ok none => ⟨.error .attributeError, cache, 0, 1⟩
      else
        let filename := env.find key0
        let searches := if env.hasMeta then 2 else 1
        let meta := if env.hasMeta then env.findMeta key0 else none
        match filename with
        | some fn =>
          match env.load key fn meta with
          | .error e => ⟨.error e, cache, searches, 1⟩
          | .ok (some r) => ⟨.ok r, cacheInsert cache key r, searches, 1⟩
          | .ok none => ⟨.error .attributeError, cache, searches, 1⟩
        | none => ⟨.error .notFound, cache, searches, 0⟩

/-- AbstractResourceManager.dispose, resources.py lines 205 to 210: frees
every cached resource (a side effect outside this model) and clears the
cache. -/
def dispose (_c : Cache) : Cache := fun _ => none

/-- The key hold-counter dictionary of InputHandler, input.py line 78: a
key name is either absent (idle) or mapped to the number of frames held. -/
abbrev Keys := String → Option ℕ

/-- A keyboard notification as delivered to InputHandler.process,
input.py lines 259 to 264: a key-down event carrying the repeat flag, or a
key-up event. -/
inductive KeyEvent where
  | down (name : String) (rep : Bool)
  | up (name : String)

/-- The per-frame increment of InputHandler.update, input.py lines 203 to
204: every key currently present in the dictionary gains one. -/
def keysIncrement (ks : Keys) : Keys := fun k => (ks k).map (· + 1)

/-- InputHandler.process, input.py lines 259 to 264: a non-repeat key-down
sets the entry to one, a repeated key-down is ignored, a key-up deletes the
entry.  The Python del statement would raise KeyError on an absent key;
the model removes silently, which agrees with the code whenever the key is
held, the only situation the claims exercise. -/
def processEvent (ks : Keys) : KeyEvent → Keys
  | .down n rep => if rep then ks else fun k => if k = n then some 1 else ks k
  | .up n => fun k => if k = n then none else ks k

/-- One driver-level frame for the key counters.  The per-frame update
entry point (micro init module, update method) first calls
InputHandler.update, which performs the increment, and then polls the
event queue, delivering the notifications of this frame to
InputHandler.process; so within one frame the increment precedes the
events. -/
def keysFrame (ks : Keys) (events : List KeyEvent) : Keys :=
  events.foldl processEvent (keysIncrement ks)

/-- InputHandler.key, input.py lines 172 to 173: the query strips and
lowercases the requested name and reads zero for an absent entry. -/
def keyQuery (ks : Keys) (name : String) : ℕ :=
  (ks (lowerStr (stripStr name))).getD 0

/-- Normalization of one raw axis reading, Joystick.update at input.py
lines 51 to 59: positive raw values are divided by 32767, the rest by
32768; axis index 1 is sign-inverted and an exact zero is replaced by
positive zero (an identity in the rational model, kept to mirror the
code). -/
def normalizeAxis (raw : ℤ) (axisIdx : ℕ) : ℚ :=
  let value : ℚ := if raw > 0 then (raw : ℚ) / 32767 else (raw : ℚ) / 32768
  if axisIdx = 1 then
    let v := -value
    if v = 0 then 0 else v
  else value

/-- The normalization rule as the specification words it: divide negative
raw values by 32768 and non-negative ones by 32767. -/
def specNormalize (raw : ℤ) : ℚ :=
  if raw < 0 then (raw : ℚ) / 32768 else (raw : ℚ) / 32767

/-- Directional hold-counter step for one axis, input.py lines 61 to 69.
The state is the pair of daxis entries of this axis: negative direction at
offset zero, positive direction at offset one. -/
def daxisStep (value : ℚ) (st : ℕ × ℕ) : ℕ × ℕ :=
  (if value < -(333/1000 : ℚ) then st.1 + 1 else 0,
   if value > (333/1000 : ℚ) then st.2 + 1 else 0)

/-- One per-frame update of a single axis, the body of the axis loop of
Joystick.update: normalize the raw reading, step the directional counters,
store the normalized value. -/
def axisStep (raw : ℤ) (axisIdx : ℕ) (st : ℕ × ℕ) : (ℕ × ℕ) × ℚ :=
  let v := normalizeAxis raw axisIdx
  (daxisStep v st, v)

/-- Line preprocessing of TileMapManager.load_resource, resources.py line
318: lowercase, cut the line at the first hash or semicolon, and delete
every whitespace character. -/
def cleanLine (s : String) : String :=
  ⟨((lowerStr s).data.takeWhile (fun c => c != '#' && c != ';')).filter
      (fun c => !c.isWhitespace)⟩

/-- Value of a decimal digit run, Python int on the captured digits. -/
def digitsToNat (l : List Char) : ℕ :=
  l.foldl (fun n c => n * 10 + (c.toNat - 48)) 0

/-- Search for the match of the lazy regex that splits a cell at a star:
the earliest asterisk followed by a digit wins, the text before it is the
tile and the maximal digit run after it is the repeat count; an asterisk
not followed by a digit is skipped by backtracking.  Models the re.match
call at resources.py line 328. -/
def findStar : List Char → Option (List Char × ℕ)
  | [] => none
  | c :: rest =>
    if c == '*' && (rest.headD ' ').isDigit then
      some ([], digitsToNat (rest.takeWhile Char.isDigit))
    else
      (findStar rest).map (fun p => (c :: p.1, p.2))

/-- Validation of one cell against the prefix-matching regex of
resources.py line 323 (digits, or identifier with optional star count): as
a prefix match it succeeds exactly when the cell starts with a digit or a
lower-case letter. -/
def tileCellOk (tile : String) : Bool :=
  match tile.data with
  | c :: _ => c.isDigit || isAZ c
  | [] => false

/-- Processing of one comma-separated cell, resources.py lines 322 to 336:
validation (only for non-empty cells), the empty-cell default of the
literal string 0, star expansion, and the copies appended to the row. -/
def parseTile (tile : String) : Except Err (List String) :=
  if tile != "" && !(tileCellOk tile) then .error .formatError
  else
    let tile := if tile = "" then "0" else tile
    match findStar tile.data with
    | some (name, count) => .ok (List.replicate count ⟨name⟩)
    | none => .ok [tile]

/-- Python str.split on a comma: the empty string yields one empty field,
and separators at the ends yield empty fields. -/
def splitComma : List Char → List (List Char)
  | [] => [[]]
  | c :: rest =>
    match splitComma rest with
    | cur :: done => if c == ',' then [] :: cur :: done else (c :: cur) :: done
    | [] => [[c]]

/-- One row line after the tiles directive: each cell is processed in
order and its expansion appended. -/
def parseRow (line : String) : Except Err (List String) :=
  (splitComma line.data).foldlM
    (fun row cell => (parseTile ⟨cell⟩).map (fun ts => row ++ ts)) []

/-- Accumulator of the load loop: the tileset name once the directive was
seen, the running maximum row length, and the rows read so far. -/
structure LoadState where
  tileset : Option String
  width   : ℕ
  rows    : List (List String)

/-- Processing of one line of a tile-map file, the loop body of
TileMapManager.load_resource, resources.py lines 316 to 346.  Before the
directive was seen, the only content accepted is a line whose first six
characters are the tiles directive; everything after the first colon or
equals sign (which, given the prefix, sits at index five) is the tileset
name.  The side call that loads the tileset image at line 343 is outside
this model.  After the directive, every non-blank line is a row. -/
def loadLine (st : LoadState) (raw : String) : Except Err LoadState :=
  let line := cleanLine raw
  if line.data.isEmpty then .ok st
  else
    match st.tileset with
    | some _ =>
      match parseRow line with
      | .error e => .error e
      | .ok row => .ok ⟨st.tileset, max st.width row.length, st.rows ++ [row]⟩
    | none =>
      if line.data.take 6 == "tiles:".data || line.data.take 6 == "tiles=".data then
        .ok ⟨some ⟨line.data.drop 6⟩, st.width, st.rows⟩
      else .error .formatError

/-- TileMapManager.load_resource, resources.py lines 310 to 349, on the
list of lines of the file: fold the line processor, then build the TileMap
with width the maximum row length and height the number of rows.  When no
directive line was ever seen the final TileMap constructor call reads the
unassigned local variable tileset, a NameError. -/
def loadTileMap (lines : List String) : Except Err TileMap :=
  match lines.foldlM loadLine ⟨none, 0, []⟩ with
  | .error e => .error e
  | .ok st =>
    match st.tileset with
    | some ts => .ok ⟨ts, (st.width : ℤ), (st.rows.length : ℤ), st.rows⟩
    | none => .error .nameError

/-! Helper lemmas about the Python-style operators. -/

/-- Folding the Python modulo twice with a positive divisor changes nothing. -/
theorem fmod_idem (a b : ℤ) (hb : 0 < b) : (a.fmod b).fmod b = a.fmod b := by
  rw [Int.fmod_eq_emod _ hb.le]
  exact Int.emod_eq_of_lt (Int.fmod_nonneg' a hb) (Int.fmod_lt_of_pos a hb)

/-- The image of the worked tile-geometry example of the specification:
100 by 100 pixels, margin 10, 20 by 20 tiles, no spacing, no animations. -/
def exampleImage : Image := ⟨100, 100, 20, 20, 10, 0, []⟩

/-- C1: the claim states that get_frame returns frames[wrapped index] + 1,
the wrapped index mapped through the frame-index table before adding one.
The code at resources.py line 400 instead returns the wrapped index plus
one and never reads the entries of the frames table.  Evaluation at the
failing input: a three-frame looping animation with frame table 5, 6, 7
and rate 10, at time 0.35, wraps the raw index 3 to index 0 and returns 1,
while the claimed value frames[0] + 1 is 6. -/
theorem animation_frames_table_ignored :
    (Animation.mk 10 "loop" [5, 6, 7]).get_frame (35/100) = 1 ∧
    (Animation.mk 10 "loop" [5, 6, 7]).frames.getD 0 0 + 1 = 6 ∧
    (1 : ℤ) ≠ 6 := by
  refine ⟨?_, by decide, by decide⟩
  norm_num [Animation.get_frame, pytrunc]
  decide

/-- C2: with loop mode none the frame offset is the minimum of the
truncated time-rate product and the frame count, so the offset may equal
the frame count, one past the last valid offset; a three-frame non-looping
animation with rate 10 at time 1.0 clamps the raw index 10 to exactly 3
(the returned frame number is 3 + 1); and a zero rate yields offset 0 at
every elapsed time. -/
theorem animation_clamp_and_zero_rate :
    (∀ (a : Animation) (t : ℚ), a.loop = "none" →
        a.get_frame t = min (pytrunc (t * a.rate)) (a.frames.length : ℤ) + 1) ∧
    (Animation.mk 10 "none" [0, 1, 2]).get_frame 1 = 3 + 1 ∧
    (∀ (a : Animation) (t : ℚ), a.rate = 0 → 0 < a.frames.length →
        a.get_frame t = 0 + 1) := by
  refine ⟨?_, ?_, ?_⟩
  · intro a t h
    simp [Animation.get_frame, h]
  · norm_num [Animation.get_frame, pytrunc]
  · intro a t hr hn
    have h0 : pytrunc (t * a.rate) = 0 := by rw [hr, mul_zero]; simp [pytrunc]
    unfold Animation.get_frame
    simp only [h0]
    by_cases h1 : a.loop = "none"
    · simp [h1, min_eq_left (Int.natCast_nonneg a.frames.length)]
    · by_cases h2 : a.loop = "loop"
      · simp [h1, h2, Int.zero_fmod]
      · simp [h1, h2]

/-- Witness for C2: the clamp conjunct at the three-frame animation with
rate 10 and time 1, and the zero-rate conjunct at a looping two-frame
animation queried at time 7. -/
theorem animation_clamp_and_zero_rate_witness :
    (Animation.mk 10 "none" [0, 1, 2]).get_frame 1 = min (pytrunc ((1:ℚ) * 10)) 3 + 1 ∧
    (Animation.mk 0 "loop" [4, 5]).get_frame 7 = 0 + 1 :=
  ⟨animation_clamp_and_zero_rate.1 (Animation.mk 10 "none" [0, 1, 2]) 1 rfl,
   animation_clamp_and_zero_rate.2.2 (Animation.mk 0 "loop" [4, 5]) 7 rfl (by decide)⟩

/-- C5: an integer reference 0 resolves to the full-image rectangle; an
integer reference of at least 1 resolves, with frame the reference minus
one and columns the floor of (width minus twice the margin) over the tile
width, to the rectangle at origin (margin + (frame mod columns) times
(tile width + spacing), margin + (frame div columns) times (tile height +
spacing)) of tile size, with no bounds check against the image extent; and
the worked example, a 100 by 100 image with margin 10, 20 by 20 tiles and
no spacing, has 4 columns and resolves frame 5 to origin (10, 30). -/
theorem image_tile_geometry :
    (∀ (img : Image) (t : ℚ),
        img.get_source_rect (.num 0) t = .ok ⟨0, 0, img.width, img.height⟩) ∧
    (∀ (img : Image) (r : ℤ) (t : ℚ), 1 ≤ r → 0 < img.tile_width → 0 < img.columns →
        img.get_source_rect (.num r) t =
          .ok ⟨img.tile_margin +
                 ((r - 1).fmod img.columns) * (img.tile_width + img.tile_spacing),
               img.tile_margin +
                 ((r - 1).fdiv img.columns) * (img.tile_height + img.tile_spacing),
               img.tile_width, img.tile_height⟩) ∧
    exampleImage.columns = 4 ∧
    exampleImage.get_source_rect (.num 5) 0 = .ok ⟨10, 30, 20, 20⟩ := by
  refine ⟨?_, ?_, by decide, by decide⟩
  · intro img t
    simp [Image.get_source_rect, Image.frameRect]
  · intro img r t hr hw hc
    have h0 : r ≠ 0 := by omega
    simp [Image.get_source_rect, Image.frameRect, h0, hw.ne', hc.ne']

/-- Witness for C5: the general tile formula applied to frame 5 of the
worked example image. -/
theorem image_tile_geometry_witness :
    exampleImage.get_source_rect (.num 5) 0 =
      .ok ⟨10 + ((5:ℤ) - 1).fmod exampleImage.columns * (20 + 0),
           10 + ((5:ℤ) - 1).fdiv exampleImage.columns * (20 + 0), 20, 20⟩ :=
  image_tile_geometry.2.1 exampleImage 5 0 (by decide) (by decide) (by decide)

/-- The tile map of the wraparound example of the specification: a 4 by 3
grid whose second and third rows are stored shorter than the width. -/
def exampleMap : TileMap := ⟨"t", 4, 3, [["a", "b", "c", "d"], ["e"], ["f"]]⟩

/-- Helper: on a grid with positive height whose row count equals the
height, the wrapped row index always selects a stored row. -/
theorem tilemap_row_exists (m : TileMap) (hh : 0 < m.height)
    (hr : (m.rows.length : ℤ) = m.height) (y : ℤ) :
    ∃ row, m.rows.get? (y.fmod m.height).toNat = some row := by
  have h1 : 0 ≤ y.fmod m.height := Int.fmod_nonneg' y hh
  have h2 : y.fmod m.height < m.height := Int.fmod_lt_of_pos y hh
  have h3 : (y.fmod m.height).toNat < m.rows.length := by omega
  exact ⟨_, List.get?_eq_get h3⟩

/-- Helper: the value get reads once the wrapped row is known, split on
whether the wrapped column falls inside the stored row. -/
theorem tilemap_get_cell (m : TileMap) (hw : 0 < m.width) (hh : 0 < m.height)
    (x y : ℤ) (row : List String)
    (hrow : m.rows.get? (y.fmod m.height).toNat = some row) :
    ((row.length : ℤ) ≤ x.fmod m.width → m.get x y = .ok "0") ∧
    (x.fmod m.width < (row.length : ℤ) →
        m.get x y = .ok (row.getD (x.fmod m.width).toNat "0")) := by
  have hrow2 : m.rows[(y.fmod m.height).toNat]? = some row := by
    simpa [List.get?_eq_getElem?] using hrow
  constructor
  · intro hle
    simp [TileMap.get, hw.ne', hh.ne', hrow2, if_pos hle]
  · intro hlt
    simp [TileMap.get, hw.ne', hh.ne', hrow2, not_le.mpr hlt]

/-- C6: on a grid with positive dimensions (and the load-time invariant
that the row count equals the height), get wraps both coordinates with the
Python modulo, so reading is invariant under wrapping, the 4-wide examples
get(4, 0) = get(0, 0) and get(-1, 0) = get(3, 0) hold, some stored row is
always selected, and the selected cell is the stored one when the wrapped
column is inside the stored row and the literal string 0 when the row is
stored shorter. -/
theorem tilemap_wraparound (m : TileMap)
    (hw : 0 < m.width) (hh : 0 < m.height) (hr : (m.rows.length : ℤ) = m.height) :
    (∀ x y : ℤ, m.get x y = m.get (x.fmod m.width) (y.fmod m.height)) ∧
    (m.width = 4 → m.get 4 0 = m.get 0 0 ∧ m.get (-1) 0 = m.get 3 0) ∧
    (∀ y : ℤ, ∃ row, m.rows.get? (y.fmod m.height).toNat = some row) ∧
    (∀ (x y : ℤ) (row : List String),
        m.rows.get? (y.fmod m.height).toNat = some row →
        ((row.length : ℤ) ≤ x.fmod m.width → m.get x y = .ok "0") ∧
        (x.fmod m.width < (row.length : ℤ) →
            m.get x y = .ok (row.getD (x.fmod m.width).toNat "0"))) := by
  have wrap : ∀ x y : ℤ, m.get x y = m.get (x.fmod m.width) (y.fmod m.height) := by
    intro x y
    have hx := fmod_idem x m.width hw
    have hy := fmod_idem y m.height hh
    simp [TileMap.get, hw.ne', hh.ne', hx, hy]
  refine ⟨wrap, ?_, ?_, ?_⟩
  · intro h4
    constructor
    · rw [wrap 4 0, wrap 0 0, h4]
      simp [show ((4:ℤ).fmod 4) = 0 from by decide, Int.zero_fmod]
    · rw [wrap (-1) 0, wrap 3 0, h4]
      simp [show ((-1:ℤ).fmod 4) = 3 from by decide, show ((3:ℤ).fmod 4) = 3 from by decide]
  · exact tilemap_row_exists m hh hr
  · exact fun x y row hrow => tilemap_get_cell m hw hh x y row hrow

/-- Witness for C6: the two wraparound equalities of the claim on the
concrete 4 by 3 grid. -/
theorem tilemap_wraparound_witness :
    exampleMap.get 4 0 = exampleMap.get 0 0 ∧
    exampleMap.get (-1) 0 = exampleMap.get 3 0 :=
  (tilemap_wraparound exampleMap (by decide) (by decide) (by decide)).2.1 rfl

/-- C10: on a grid whose width or height is zero, which is exactly what
loading a tile-map file that contains only a valid tiles directive and no
row lines produces, every get call fails with the ZeroDivisionError of the
wraparound modulo; get returns a tile reference for all coordinates only
on grids with positive width and height. -/
theorem tilemap_zero_grid :
    (∀ (m : TileMap) (x y : ℤ), m.width = 0 ∨ m.height = 0 →
        m.get x y = .error .zeroDivision) ∧
    loadTileMap ["tiles:foo"] = .ok ⟨"foo", 0, 0, []⟩ ∧
    (∀ (m : TileMap) (x y : ℤ), 0 < m.width → 0 < m.height →
        (m.rows.length : ℤ) = m.height → ∃ s, m.get x y = .ok s) := by
  refine ⟨?_, by decide, ?_⟩
  · intro m x y h
    rcases h with h | h
    · simp [TileMap.get, h]
    · by_cases hw : m.width = 0
      · simp [TileMap.get, hw]
      · simp [TileMap.get, hw, h]
  · intro m x y hw hh hr
    obtain ⟨row, hrow⟩ := tilemap_row_exists m hh hr y
    by_cases hle : (row.length : ℤ) ≤ x.fmod m.width
    · exact ⟨"0", (tilemap_get_cell m hw hh x y row hrow).1 hle⟩
    · exact ⟨_, (tilemap_get_cell m hw hh x y row hrow).2 (not_le.mp hle)⟩

/-- Witness for C10: the zero-grid conjunct at the empty tile map the
directive-only file loads to, and totality at the 4 by 3 example grid. -/
theorem tilemap_zero_grid_witness :
    (TileMap.mk "foo" 0 0 []).get 5 7 = .error .zeroDivision ∧
    ∃ s, exampleMap.get 2 1 = .ok s :=
  ⟨tilemap_zero_grid.1 (TileMap.mk "foo" 0 0 []) 5 7 (.inl rfl),
   tilemap_zero_grid.2.2 exampleMap 2 1 (by decide) (by decide) (by decide)⟩

/-- Helper: the integer branch can only succeed or fail with the division
errors; it never produces a name-resolution error. -/
theorem frameRect_not_name_error (img : Image) (f : ℤ) :
    img.frameRect f ≠ .error .invalidName ∧ img.frameRect f ≠ .error .unknownAnimation := by
  simp only [Image.frameRect]
  split_ifs <;> simp

/-- An image carrying one animation, used to exercise the success path of
the animation-name resolution. -/
def exampleAnimImage : Image := ⟨64, 64, 16, 16, 0, 0, [("walk", ⟨10, "loop", [5, 6, 7]⟩)]⟩

/-- Counterexample for C8: the claim says InvalidNameError is raised
exactly when the reference fails the animation-identifier pattern of a
letter followed by alphanumerics.  The reference ab# fails that anchored
pattern, yet the code raises UnknownAnimationError, because the re.match
call at resources.py line 446 checks only a prefix of the key. -/
theorem image_animation_errors_counterexample :
    specIdentPlus "ab#" = false ∧
    exampleImage.get_source_rect (.name "ab#") 0 = .error .unknownAnimation ∧
    (Except.error Err.unknownAnimation : Except Err Rect) ≠ .error .invalidName :=
  ⟨by decide, by decide, by decide⟩

/-- C8 (amended): a non-integer reference raises InvalidNameError exactly
when the stripped, lowercased reference does not begin with an ASCII
letter followed by an alphanumeric (the identifier pattern checked as a
prefix), raises UnknownAnimationError exactly when that prefix test passes
but no animation of that name is defined on the image, and on success
resolves through the frame-index path using the matched animation's
get_frame at the given time. -/
theorem image_animation_errors (img : Image) (s : String) (t : ℚ) :
    (img.get_source_rect (.name s) t = .error .invalidName ↔
        reMatchPlus (lowerStr (stripStr s)) = false) ∧
    (img.get_source_rect (.name s) t = .error .unknownAnimation ↔
        reMatchPlus (lowerStr (stripStr s)) = true ∧
        List.lookup (lowerStr (stripStr s)) img.animations = none) ∧
    (∀ a : Animation, reMatchPlus (lowerStr (stripStr s)) = true →
        List.lookup (lowerStr (stripStr s)) img.animations = some a →
        img.get_source_rect (.name s) t = img.frameRect (a.get_frame t)) := by
  cases hm : reMatchPlus (lowerStr (stripStr s)) with
  | false => simp [Image.get_source_rect, hm]
  | true =>
    cases hl : List.lookup (lowerStr (stripStr s)) img.animations with
    | none => simp [Image.get_source_rect, hm, hl]
    | some a =>
      obtain ⟨hf1, hf2⟩ := frameRect_not_name_error img (a.get_frame t)
      refine ⟨?_, ?_, ?_⟩
      · simp [Image.get_source_rect, hm, hl, hf1]
      · simp [Image.get_source_rect, hm, hl, hf2]
      · intro a2 _ hl2
        cases hl2
        simp [Image.get_source_rect, hm, hl]

/-- Witness for C8: a single-letter reference fails the prefix test; a
well-formed name absent from an image with no animations is unknown; and
the animation of the example image resolves through get_frame, with the
reference matched case-insensitively after stripping. -/
theorem image_animation_errors_witness :
    exampleImage.get_source_rect (.name "a") 0 = .error .invalidName ∧
    exampleImage.get_source_rect (.name "walk") 0 = .error .unknownAnimation ∧
    exampleAnimImage.get_source_rect (.name " Walk ") (35/100) =
      exampleAnimImage.frameRect ((Animation.mk 10 "loop" [5, 6, 7]).get_frame (35/100)) :=
  ⟨(image_animation_errors exampleImage "a" 0).1.mpr (by decide),
   (image_animation_errors exampleImage "walk" 0).2.1.mpr ⟨by decide, by decide⟩,
   (image_animation_errors exampleAnimImage " Walk " (35/100)).2.2
     (Animation.mk 10 "loop" [5, 6, 7]) (by decide) (by decide)⟩

/-- Helper: a successful get leaves the returned handle in the cache under
the stripped, lowercased key. -/
theorem get_ok_cached (env : Env) (c : Cache) (name : String) (more : List ℤ)
    (internal : Bool) (h : ℕ)
    (hres : (get env c name more internal).res = .ok h) :
    (get env c name more internal).cache (lowerStr (stripStr name), more) = some h := by
  by_cases hval : (!internal && !(reMatchStar (lowerStr (stripStr name)))) = true
  · simp [get, hval] at hres
  · rw [Bool.not_eq_true] at hval
    cases hc : c (lowerStr (stripStr name), more) with
    | some r =>
      have hres2 : r = h := by simpa [get, hval, hc] using hres
      subst hres2
      simp [get, hval, hc]
    | none =>
      cases internal with
      | true =>
        cases hload : env.loadInternal (lowerStr (stripStr name), more) with
        | error e => simp [get, hval, hc, hload] at hres
        | ok ro =>
          cases ro with
          | none => simp [get, hval, hc, hload] at hres
          | some r =>
            have hres2 : r = h := by simpa [get, hval, hc, hload] using hres
            subst hres2
            simp [get, hval, hc, hload, cacheInsert]
      | false =>
        have hval2 : reMatchStar (lowerStr (stripStr name)) = true := by simpa using hval
        cases hf : env.find (lowerStr (stripStr name)) with
        | none => simp [get, hval2, hc, hf] at hres
        | some fn =>
          cases hload : env.load (lowerStr (stripStr name), more) fn
              (if env.hasMeta then env.findMeta (lowerStr (stripStr name)) else none) with
          | error e => simp [get, hval2, hc, hf, hload] at hres
          | ok ro =>
            cases ro with
            | none => simp [get, hval2, hc, hf, hload] at hres
            | some r =>
              have hres2 : r = h := by simpa [get, hval2, hc, hf, hload] using hres
              subst hres2
              simp [get, hval2, hc, hf, hload, cacheInsert]

/-- Helper: a call whose validation passes and whose key is cached returns
the cached handle at once, with the cache unchanged and no search and no
load. -/
theorem get_hit (env : Env) (c : Cache) (name : String) (more : List ℤ)
    (internal : Bool) (h : ℕ)
    (hval : (!internal && !(reMatchStar (lowerStr (stripStr name)))) = false)
    (hc : c (lowerStr (stripStr name), more) = some h) :
    get env c name more internal = ⟨.ok h, c, 0, 0⟩ := by
  simp [get, hval, hc]

/-- Helper: a successful get implies the name validation did not fire. -/
theorem get_ok_not_invalid (env : Env) (c : Cache) (name : String) (more : List ℤ)
    (internal : Bool) (h : ℕ)
    (hres : (get env c name more internal).res = .ok h) :
    (!internal && !(reMatchStar (lowerStr (stripStr name)))) = false := by
  by_cases hval : (!internal && !(reMatchStar (lowerStr (stripStr name)))) = true
  · simp [get, hval] at hres
  · simpa using hval

/-- C3: once a get call has returned a handle, a second call before any
dispose whose name has the same stripped, lowercased form (so names that
differ only in letter case or surrounding whitespace) and the same
discriminators returns the very same handle from the cache, leaves the
cache untouched, and performs zero directory searches and zero loads. -/
theorem cache_idempotent (env : Env) (c : Cache) (name name2 : String)
    (more : List ℤ) (internal : Bool) (h : ℕ)
    (h1 : (get env c name more internal).res = .ok h)
    (h2 : lowerStr (stripStr name2) = lowerStr (stripStr name)) :
    get env (get env c name more internal).cache name2 more internal =
      ⟨.ok h, (get env c name more internal).cache, 0, 0⟩ := by
  apply get_hit
  · rw [h2]
    exact get_ok_not_invalid env c name more internal h h1
  · rw [h2]
    exact get_ok_cached env c name more internal h h1

/-- Environment in which every name resolves to one backing file and the
loader yields handle 42. -/
def exampleEnv : Env :=
  ⟨fun _ => some "hero.png", fun _ => none, true, fun _ _ _ => .ok (some 42), fun _ => .ok none⟩

/-- The empty cache. -/
def emptyCache : Cache := fun _ => none

/-- Witness for C3: loading Hero and then asking for hero returns the
cached handle 42 with no search and no load. -/
theorem cache_idempotent_witness :
    get exampleEnv (get exampleEnv emptyCache "Hero" [] false).cache "hero" [] false =
      ⟨.ok 42, (get exampleEnv emptyCache "Hero" [] false).cache, 0, 0⟩ :=
  cache_idempotent exampleEnv emptyCache "Hero" "hero" [] false 42 (by decide) (by decide)

/-- Environment with no files at all. -/
def emptyEnv : Env :=
  ⟨fun _ => none, fun _ => none, false, fun _ _ _ => .ok none, fun _ => .ok none⟩

/-- Environment in which the backing file is always found but the loader
always raises. -/
def exampleFailEnv : Env :=
  ⟨fun _ => some "x.png", fun _ => none, false, fun _ _ _ => .error .loadError, fun _ => .ok none⟩

/-- Counterexample for C7: the claim says get raises InvalidNameError when
the name fails the identifier pattern.  The name a! fails the anchored
pattern, yet the code accepts it, because the re.match call at
resources.py line 170 tests only a prefix; with no backing file the call
ends in NotFoundError instead. -/
theorem resource_get_errors_counterexample :
    specIdentStar "a!" = false ∧
    (get emptyEnv emptyCache "a!" [] false).res = .error .notFound ∧
    (Except.error Err.notFound : Except Err ℕ) ≠ .error .invalidName :=
  ⟨by decide, by decide, by decide⟩

/-- C7 (amended): with internal not set, get raises InvalidNameError when
the stripped, lowercased name does not begin with an ASCII lower-case
letter (the identifier pattern is applied as a prefix match); on a cache
miss it raises NotFoundError when the directory scan finds no backing
file, after at least one search; it propagates the loader's error
unchanged when the file is found but the loader raises; and a failing call
of any kind leaves the cache unchanged, so an identical repeated request
behaves exactly the same, re-attempting the search and load. -/
theorem resource_get_errors (env : Env) (c : Cache) (name : String) (more : List ℤ) :
    (reMatchStar (lowerStr (stripStr name)) = false →
        get env c name more false = ⟨.error .invalidName, c, 0, 0⟩) ∧
    (reMatchStar (lowerStr (stripStr name)) = true →
        c (lowerStr (stripStr name), more) = none →
        env.find (lowerStr (stripStr name)) = none →
        (get env c name more false).res = .error .notFound ∧
        (get env c name more false).cache = c ∧
        1 ≤ (get env c name more false).searches) ∧
    (∀ (e : Err) (fn : String), reMatchStar (lowerStr (stripStr name)) = true →
        c (lowerStr (stripStr name), more) = none →
        env.find (lowerStr (stripStr name)) = some fn →
        env.load (lowerStr (stripStr name), more) fn
            (if env.hasMeta then env.findMeta (lowerStr (stripStr name)) else none) =
          .error e →
        (get env c name more false).res = .error e ∧
        (get env c name more false).cache = c) ∧
    (∀ e : Err, (get env c name more false).res = .error e →
        (get env c name more false).cache = c ∧
        get env ((get env c name more false).cache) name more false =
          get env c name more false) := by
  refine ⟨?_, ?_, ?_, ?_⟩
  · intro hm
    simp [get, hm]
  · intro hm hc hf
    refine ⟨by simp [get, hm, hc, hf], by simp [get, hm, hc, hf], ?_⟩
    cases henv : env.hasMeta <;> simp [get, hm, hc, hf, henv]
  · intro e fn hm hc hf hl
    exact ⟨by simp [get, hm, hc, hf, hl], by simp [get, hm, hc, hf, hl]⟩
  · intro e hres
    have hcache : (get env c name more false).cache = c := by
      by_cases hm : reMatchStar (lowerStr (stripStr name)) = true
      · cases hc : c (lowerStr (stripStr name), more) with
        | some r => simp [get, hm, hc] at hres
        | none =>
          cases hf : env.find (lowerStr (stripStr name)) with
          | none => simp [get, hm, hc, hf]
          | some fn =>
            cases hl : env.load (lowerStr (stripStr name), more) fn
                (if env.hasMeta then env.findMeta (lowerStr (stripStr name)) else none) with
            | error e2 => simp [get, hm, hc, hf, hl]
            | ok ro =>
              cases ro with
              | some r => simp [get, hm, hc, hf, hl] at hres
              | none => simp [get, hm, hc, hf, hl]
      · have hm2 : reMatchStar (lowerStr (stripStr name)) = false := by simpa using hm
        simp [get, hm2]
    exact ⟨hcache, by rw [hcache]⟩

/-- Witness for C7: a name starting with a non-letter is rejected; a
well-formed name with no backing file ends in NotFoundError after a
search, cache unchanged; and a found file whose loader raises propagates
the load error, cache unchanged. -/
theorem resource_get_errors_witness :
    get emptyEnv emptyCache "!x" [] false = ⟨.error .invalidName, emptyCache, 0, 0⟩ ∧
    ((get emptyEnv emptyCache "abc" [] false).res = .error .notFound ∧
      (get emptyEnv emptyCache "abc" [] false).cache = emptyCache ∧
      1 ≤ (get emptyEnv emptyCache "abc" [] false).searches) ∧
    ((get exampleFailEnv emptyCache "abc" [] false).res = .error .loadError ∧
      (get exampleFailEnv emptyCache "abc" [] false).cache = emptyCache) :=
  ⟨(resource_get_errors emptyEnv emptyCache "!x" []).1 (by decide),
   (resource_get_errors emptyEnv emptyCache "abc" []).2.1 (by decide) rfl rfl,
   (resource_get_errors exampleFailEnv emptyCache "abc" []).2.2.1 .loadError "x.png"
     (by decide) rfl rfl rfl⟩

/-- State of the key dictionary after the driver-level update of index n,
for a key pressed during the first update (its press notification is
polled within that update, after the increment step) and held from then
on, with no other notifications. -/
def heldFrames (ks : Keys) (k : String) : ℕ → Keys
  | 0 => keysFrame ks [.down k false]
  | n + 1 => keysFrame (heldFrames ks k n) []

/-- Helper: the held key's entry after update n is exactly n + 1. -/
theorem heldFrames_val (ks : Keys) (k : String) (hk : ks k = none) :
    ∀ n : ℕ, heldFrames ks k n k = some (n + 1)
  | 0 => by simp [heldFrames, keysFrame, keysIncrement, processEvent, hk]
  | n + 1 => by simp [heldFrames, keysFrame, keysIncrement, heldFrames_val ks k hk n]

/-- C4: for a key that is initially idle, the press notification is
delivered inside the first per-frame update (the update entry point calls
the counter increment before polling the events of the frame), and the
query after the update of index n reads n + 1, so five consecutive updates
while held read 1, 2, 3, 4, 5; a release notification removes the entry,
so the following query reads 0; and a key-repeat notification delivered
while the key is held is ignored, leaving the incremented value 2 rather
than resetting the counter to 1. -/
theorem key_hold_counters (ks : Keys) (k : String)
    (hk : ks k = none) (hnorm : lowerStr (stripStr k) = k) :
    (∀ n : ℕ, keyQuery (heldFrames ks k n) k = n + 1) ∧
    keyQuery (keysFrame (heldFrames ks k 4) [.up k]) k = 0 ∧
    keyQuery (keysFrame (heldFrames ks k 0) [.down k true]) k = 2 := by
  refine ⟨?_, ?_, ?_⟩
  · intro n
    simp [keyQuery, hnorm, heldFrames_val ks k hk n]
  · simp [keyQuery, hnorm, keysFrame, processEvent]
  · simp [keyQuery, hnorm, keysFrame, processEvent, keysIncrement,
      heldFrames_val ks k hk 0]

/-- Witness for C4: the key z, starting from the empty dictionary, reads
1 and 5 after the first and fifth update, 0 after a release, and 2 when a
repeat notification arrives during the second update. -/
theorem key_hold_counters_witness :
    keyQuery (heldFrames (fun _ => none) "z" 0) "z" = 1 ∧
    keyQuery (heldFrames (fun _ => none) "z" 4) "z" = 5 ∧
    keyQuery (keysFrame (heldFrames (fun _ => none) "z" 4) [.up "z"]) "z" = 0 ∧
    keyQuery (keysFrame (heldFrames (fun _ => none) "z" 0) [.down "z" true]) "z" = 2 :=
  ⟨(key_hold_counters (fun _ => none) "z" rfl (by decide)).1 0,
   (key_hold_counters (fun _ => none) "z" rfl (by decide)).1 4,
   (key_hold_counters (fun _ => none) "z" rfl (by decide)).2.1,
   (key_hold_counters (fun _ => none) "z" rfl (by decide)).2.2⟩

/-- C9: the per-axis update step is the directional counter step applied
to the normalized value; normalization equals the specification formula
(negative raw readings divided by 32768, non-negative ones by 32767) with
axis index 1 sign-inverted; the directional counters increment past the
0.333 deadzone in the matching direction and reset to 0 otherwise; a
normalized value 0.2 resets both counters, and a sustained 0.5 counts the
positive direction 1, 2, 3 while the negative one stays 0. -/
theorem joystick_axis (raw : ℤ) (idx : ℕ) (v : ℚ) (st : ℕ × ℕ) :
    (axisStep raw idx st = (daxisStep (normalizeAxis raw idx) st, normalizeAxis raw idx)) ∧
    (normalizeAxis raw idx = if idx = 1 then -(specNormalize raw) else specNormalize raw) ∧
    (v < -(333/1000 : ℚ) → daxisStep v st = (st.1 + 1, 0)) ∧
    ((333/1000 : ℚ) < v → daxisStep v st = (0, st.2 + 1)) ∧
    (-(333/1000 : ℚ) ≤ v → v ≤ (333/1000 : ℚ) → daxisStep v st = (0, 0)) ∧
    (daxisStep (2/10) st = (0, 0)) ∧
    (daxisStep (5/10) (0, 0) = (0, 1) ∧ daxisStep (5/10) (0, 1) = (0, 2) ∧
      daxisStep (5/10) (0, 2) = (0, 3)) := by
  refine ⟨rfl, ?_, ?_, ?_, ?_, ?_, ?_⟩
  · rcases lt_trichotomy raw 0 with h | h | h
    · have h1 : ¬ (0 : ℤ) < raw := by omega
      have h2 : ((raw : ℚ)) < 0 := by exact_mod_cast h
      have h3 : (raw : ℚ) / 32768 ≠ 0 := div_ne_zero (ne_of_lt h2) (by norm_num)
      simp [normalizeAxis, specNormalize, h, h1, h3, neg_ne_zero.mpr h3]
    · subst h
      simp [normalizeAxis, specNormalize]
    · have h1 : ¬ raw < 0 := by omega
      have h2 : (0 : ℚ) < (raw : ℚ) := by exact_mod_cast h
      have h3 : (raw : ℚ) / 32767 ≠ 0 := div_ne_zero (ne_of_gt h2) (by norm_num)
      simp [normalizeAxis, specNormalize, h, h1, h3, neg_ne_zero.mpr h3]
  · intro hv
    have h2 : ¬ (333/1000 : ℚ) < v := by linarith
    simp [daxisStep, hv, h2]
  · intro hv
    have h2 : ¬ v < -(333/1000 : ℚ) := by linarith
    simp [daxisStep, hv, h2]
  · intro hv1 hv2
    have h1 : ¬ v < -(333/1000 : ℚ) := not_lt.mpr hv1
    have h2 : ¬ (333/1000 : ℚ) < v := not_lt.mpr hv2
    simp [daxisStep, h1, h2]
  · norm_num [daxisStep]
  · refine ⟨?_, ?_, ?_⟩ <;> norm_num [daxisStep]

/-- The deadzone threshold is below the normalized value one. -/
theorem deadzone_lt_one : (333/1000 : ℚ) < 1 := by norm_num

/-- The negated deadzone threshold is at most zero. -/
theorem neg_deadzone_le_zero : -(333/1000 : ℚ) ≤ 0 := by norm_num

/-- Zero is at most the deadzone threshold. -/
theorem zero_le_deadzone : (0 : ℚ) ≤ 333/1000 := by norm_num

/-- Witness for C9: a centred axis resets both directional counters from
any prior value, and a full positive deflection increments the positive
counter. -/
theorem joystick_axis_witness :
    daxisStep 0 (3, 4) = (0, 0) ∧ daxisStep 1 (0, 0) = (0, 1) :=
  ⟨(joystick_axis 0 0 0 (3, 4)).2.2.2.2.1 neg_deadzone_le_zero zero_le_deadzone,
   (joystick_axis 0 0 1 (0, 0)).2.2.2.1 deadzone_lt_one⟩

end Micro
